import Mathlib

/-!
Verification of the MeetSched scheduling server against its specification.

Shallow embedding of:
* `src/server/storage.ts` (second, authoritative `MemStorage` version): users,
  contacts and bookings held in insertion-ordered maps (modelled as lists with
  JavaScript `Map.set` replace-or-append semantics).
* `src/server/services/office.ts` as shipped in the full-featured version of the
  service (the one `src/server/routes.ts` depends on, providing `syncUserData`,
  `syncBookingToOffice`, the Google branch, …): `handleCallback`,
  `refreshTokenIfNeeded`, `syncUserData`, `hasValidConnection`,
  `syncBookingToOffice`.  Network calls are oracles passed in as `Except`-valued
  functions of the access / refresh token used.
* the `POST /api/bookings` handler of `src/server/routes.ts`.
* the deterministic variant of `generateTimeSlotSuggestions` in
  `src/server/services/openai.ts` (lines 223-332), including a faithful model of
  the regular expression /(\d{1,2}):?(\d{0,2})?\s*(am|pm)/i used there.

JavaScript dates are modelled by days-since-epoch (1970-01-01 was a Thursday)
plus minute-of-day; absolute instants are minutes since epoch, which captures
`setDate`/`setHours`/`setMinutes` overflow normalisation.
-/

/-- JavaScript `String.prototype.toLowerCase` restricted to the ASCII data this
program handles (character-wise `Char.toLower`). -/
def jsToLower (s : String) : String := String.mk (s.data.map Char.toLower)

/-- `needle` occurs at the start of `hay` (both as char lists). -/
def startsWithChars : List Char → List Char → Bool
  | [], _ => true
  | _ :: _, [] => false
  | a :: as, b :: bs => a == b && startsWithChars as bs

/-- `needle` occurs somewhere inside `hay`. -/
def containsChars (needle : List Char) : List Char → Bool
  | [] => needle.isEmpty
  | c :: cs => startsWithChars needle (c :: cs) || containsChars needle cs

/-- JavaScript `hay.includes(needle)`. -/
def strIncludes (hay needle : String) : Bool := containsChars needle.data hay.data

/-- JavaScript truthiness of a nullable string (`null`, `undefined` and `""`
are falsy). -/
def jsTruthyStr : Option String → Bool
  | none => false
  | some s => s ≠ ""

/-- JavaScript `x || null` for a nullable string: an empty string collapses to
`null`. -/
def jsOrNullStr : Option String → Option String
  | none => none
  | some s => if s = "" then none else some s

/-- JavaScript `x || d` for a nullable string (empty string falls back to the
default). -/
def jsOrStr (o : Option String) (d : String) : String :=
  match o with
  | none => d
  | some s => if s = "" then d else s

/-- JavaScript `x || null` for a nullable number (`0` is falsy). -/
def jsOrNullNat : Option Nat → Option Nat
  | none => none
  | some n => if n = 0 then none else some n

/-! ## Data model (`src/shared/schema.ts`) -/

/-- A row of the `users` table; only the columns the verified operations touch
are carried (`avatar`, `isPrivateMode` and the two timestamps never influence
the verified control flow). -/
structure User where
  id : String
  email : String
  name : String
  officeConnectionStatus : String
  officeConnectionType : Option String
  officeAccessToken : Option String
  officeRefreshToken : Option String
  officeCalendarId : Option String
deriving Repr, DecidableEq

/-- A row of the `contacts` table. -/
structure Contact where
  id : Nat
  userId : String
  name : String
  email : Option String
  role : Option String
  status : String
  avatar : Option String
  isPrivate : Bool
  officeContactId : Option String
deriving Repr, DecidableEq

/-- A row of the `bookings` table.  Instants are minutes since epoch. -/
structure Booking where
  id : Nat
  userId : String
  title : String
  description : Option String
  startTime : Int
  endTime : Int
  contactId : Option Nat
  type : String
  status : String
  location : Option String
  isAllDay : Bool
  isPrivate : Bool
  officeEventId : Option String
  officeEventUrl : Option String
deriving Repr, DecidableEq

/-- `insertBookingSchema = createInsertSchema(bookings).omit({id})`
(`src/shared/schema.ts` lines 85-87): every column except `id`, with the
columns that carry SQL defaults optional.  Note there is no refinement relating
`startTime` and `endTime`. -/
structure InsertBooking where
  userId : String
  title : String
  description : Option String
  startTime : Int
  endTime : Int
  contactId : Option Nat
  type : Option String
  status : Option String
  location : Option String
  isAllDay : Option Bool
  isPrivate : Option Bool
  officeEventId : Option String
  officeEventUrl : Option String
deriving Repr, DecidableEq

/-- `insertContactSchema = createInsertSchema(contacts).omit({id})`. -/
structure InsertContact where
  userId : String
  name : String
  email : Option String
  role : Option String
  status : String
  avatar : Option String
  isPrivate : Option Bool
  officeContactId : Option String
deriving Repr, DecidableEq

/-! ## Storage (`src/server/storage.ts`, second `MemStorage`)

The `Map`s are modelled as lists in insertion order; `Map.set` replaces the
entry with the same key in place, else appends. -/

/-- `MemStorage`'s mutable state (the members the verified operations use). -/
structure Storage where
  users : List User
  contacts : List Contact
  bookings : List Booking
  currentContactId : Nat
  currentBookingId : Nat
deriving Repr, DecidableEq

/-- `this.bookings.set(id, booking)`: replace in place or append. -/
def bookingMapSet (l : List Booking) (b : Booking) : List Booking :=
  if l.any (fun x => x.id == b.id) then
    l.map (fun x => if x.id == b.id then b else x)
  else l ++ [b]

/-- `this.contacts.set(id, contact)`. -/
def contactMapSet (l : List Contact) (c : Contact) : List Contact :=
  if l.any (fun x => x.id == c.id) then
    l.map (fun x => if x.id == c.id then c else x)
  else l ++ [c]

/-- `MemStorage.getBooking`. -/
def getBooking (s : Storage) (id : Nat) : Option Booking :=
  s.bookings.find? (fun b => b.id == id)

/-- `MemStorage.updateUser(id, data)`: merge the patch into the stored user;
no-op when the user does not exist. -/
def updateUser (s : Storage) (id : String) (patch : User → User) : Storage :=
  { s with users := s.users.map (fun u => if u.id == id then patch u else u) }

/-- `MemStorage.getContactByName(name, userId)`:
first contact whose lower-cased name *contains* the lower-cased query,
optionally scoped to the user (`!userId ||` — an empty id disables the scope,
mirroring JavaScript truthiness). -/
def getContactByName (s : Storage) (name : String) (userId : Option String) :
    Option Contact :=
  s.contacts.find? (fun c =>
    strIncludes (jsToLower c.name) (jsToLower name) &&
    (match userId with
     | none => true
     | some uid => if uid = "" then true else c.userId == uid))

/-- `MemStorage.createContact`. -/
def createContact (s : Storage) (ic : InsertContact) : Storage × Contact :=
  let id := s.currentContactId
  let c : Contact :=
    { id := id
      userId := ic.userId
      name := ic.name
      email := jsOrNullStr ic.email
      avatar := jsOrNullStr ic.avatar
      role := jsOrNullStr ic.role
      status := ic.status
      isPrivate := ic.isPrivate.getD false
      officeContactId := jsOrNullStr ic.officeContactId }
  ({ s with contacts := contactMapSet s.contacts c, currentContactId := id + 1 }, c)

/-- `MemStorage.createBooking` (`src/server/storage.ts` lines 507-524): store
the insert payload as given, filling column defaults; `startTime`/`endTime`
are persisted untouched. -/
def createBooking (s : Storage) (ib : InsertBooking) : Storage × Booking :=
  let id := s.currentBookingId
  let b : Booking :=
    { id := id
      userId := ib.userId
      title := ib.title
      description := jsOrNullStr ib.description
      startTime := ib.startTime
      endTime := ib.endTime
      contactId := jsOrNullNat ib.contactId
      type := jsOrStr ib.type "meeting"
      status := jsOrStr ib.status "scheduled"
      location := jsOrNullStr ib.location
      isAllDay := ib.isAllDay.getD false
      isPrivate := ib.isPrivate.getD false
      officeEventId := jsOrNullStr ib.officeEventId
      officeEventUrl := jsOrNullStr ib.officeEventUrl }
  ({ s with bookings := bookingMapSet s.bookings b, currentBookingId := id + 1 }, b)

/-- Connection status of a stored user, if the user exists. -/
def connStatus (s : Storage) (userId : String) : Option String :=
  (s.users.find? (fun u => u.id == userId)).map (fun u => u.officeConnectionStatus)

/-! ## Office connection service (`OfficeConnectionService`)

HTTP calls are oracles: each provider endpoint is an `Except`-valued input,
keyed by the token the code passes to it where that matters. -/

/-- Result of a token-endpoint call (`exchange*Code` / `refresh*Token`):
`refreshToken` is `data.refresh_token || null` for exchanges and
`data.refresh_token || refreshToken` (never null) for refreshes. -/
structure TokenResponse where
  accessToken : String
  refreshToken : Option String
  expiresIn : Nat
deriving Repr, DecidableEq

/-- A calendar returned by `getMicrosoftCalendars`. -/
structure MsCalendar where
  id : String
  name : String
  isDefaultCalendar : Bool
deriving Repr, DecidableEq

/-- `getGoogleUserInfo`'s result. -/
structure GoogleUserInfo where
  email : String
  name : String
deriving Repr, DecidableEq

/-- The value `handleCallback` resolves with. -/
structure ConnectionSummary where
  ctype : String
  status : String
  calendarName : String
  message : String
deriving Repr, DecidableEq

/-- Which OAuth client credentials are configured in the environment
(`MICROSOFT_CLIENT_ID`; `GOOGLE_CLIENT_ID` && `GOOGLE_CLIENT_SECRET`). -/
structure OAuthEnv where
  microsoftClientConfigured : Bool
  googleCredsConfigured : Bool
deriving Repr, DecidableEq

/-- Outcomes of the provider calls `handleCallback` can make. -/
structure CallbackOracles where
  exchangeMicrosoftCode : Except String TokenResponse
  getMicrosoftCalendars : String → Except String (List MsCalendar)
  exchangeGoogleCode : Except String TokenResponse
  getGoogleUserInfo : String → Except String GoogleUserInfo

/-- The catch-block of the Microsoft branch of `handleCallback`: mark the
user's connection `error` and re-throw with the underlying message. -/
def msCallbackCatch (s : Storage) (userId e : String) :
    Storage × Except String ConnectionSummary :=
  (updateUser s userId (fun u => { u with officeConnectionStatus := "error" }),
   Except.error ("Failed to connect Microsoft Outlook: " ++ e))

/-- The catch-block of the Google branch of `handleCallback`. -/
def gCallbackCatch (s : Storage) (userId e : String) :
    Storage × Except String ConnectionSummary :=
  (updateUser s userId (fun u => { u with officeConnectionStatus := "error" }),
   Except.error ("Failed to connect Google Calendar: " ++ e))

/-- `calendars.find(cal => cal.isDefaultCalendar) || calendars[0]`. -/
def pickPrimaryCalendar (cals : List MsCalendar) : Option MsCalendar :=
  match cals.find? (fun cal => cal.isDefaultCalendar) with
  | some cal => some cal
  | none => cals.head?

/-- `OfficeConnectionService.handleCallback(userId, type, code)` (full office
service, lines 131-232).  The configuration guards sit before the
`try`-blocks, so a missing client id throws without touching stored state;
inside the `try`, any failure of the token exchange or of the calendar /
user-info discovery reaches the catch-block which writes
`officeConnectionStatus = 'error'` and re-throws with the cause appended. -/
def handleCallback (s : Storage) (userId ctype : String) (env : OAuthEnv)
    (o : CallbackOracles) : Storage × Except String ConnectionSummary :=
  if ctype = "microsoft" then
    if !env.microsoftClientConfigured then
      (s, Except.error "Microsoft OAuth credentials not configured")
    else
      match o.exchangeMicrosoftCode with
      | Except.error e => msCallbackCatch s userId e
      | Except.ok tok =>
        match o.getMicrosoftCalendars tok.accessToken with
        | Except.error e => msCallbackCatch s userId e
        | Except.ok cals =>
          match pickPrimaryCalendar cals with
          | none => msCallbackCatch s userId "No calendar found"
          | some primaryCalendar =>
            (updateUser s userId (fun u =>
              { u with officeConnectionStatus := "connected"
                       officeConnectionType := some "microsoft"
                       officeAccessToken := some tok.accessToken
                       officeRefreshToken := tok.refreshToken
                       officeCalendarId := some primaryCalendar.id }),
             Except.ok
               { ctype := "microsoft", status := "connected"
                 calendarName := primaryCalendar.name
                 message := "Microsoft Outlook connected successfully" })
  else if ctype = "google" then
    if !env.googleCredsConfigured then
      (s, Except.error "Google OAuth credentials not configured")
    else
      match o.exchangeGoogleCode with
      | Except.error e => gCallbackCatch s userId e
      | Except.ok tok =>
        match o.getGoogleUserInfo tok.accessToken with
        | Except.error e => gCallbackCatch s userId e
        | Except.ok _userInfo =>
          (updateUser s userId (fun u =>
            { u with officeConnectionStatus := "connected"
                     officeConnectionType := some "google"
                     officeAccessToken := some tok.accessToken
                     officeRefreshToken := tok.refreshToken
                     officeCalendarId := some "primary" }),
           Except.ok
             { ctype := "google", status := "connected"
               calendarName := "Google Calendar"
               message := "Google Calendar connected successfully" })
  else (s, Except.error "Unsupported connection type")

/-- `OfficeConnectionService.hasValidConnection(user)`:
`status === 'connected' && !!accessToken && !!calendarId`. -/
def hasValidConnection (user : User) : Bool :=
  user.officeConnectionStatus == "connected" &&
  jsTruthyStr user.officeAccessToken &&
  jsTruthyStr user.officeCalendarId

/-- Oracles used by `syncUserData` / `refreshTokenIfNeeded`; the list endpoints
are functions of the access token presented, the refresh endpoint of the
refresh token presented.  Event listings are consumed only through `.length`,
so the oracle returns the count. -/
structure SyncOracles where
  msContacts : String → Except String (List (String × String × Option String × Option String))
  msEvents : String → Except String Nat
  gContacts : String → Except String (List (String × Option String × Option String × Option String))
  gEvents : String → Except String Nat
  refresh : String → Except String TokenResponse
  refreshClientConfigured : Bool

/-- `OfficeConnectionService.refreshTokenIfNeeded(user)` (lines 796-845):
no refresh token or missing client id throw before the `try`; a failing
refresh call marks the connection `error` and re-throws; a successful one
persists the rotated token pair (against the *stored* user record — the
caller's in-memory `user` object is not mutated). -/
def refreshTokenIfNeeded (s : Storage) (user : User) (o : SyncOracles) :
    Storage × Except String Unit :=
  match user.officeRefreshToken with
  | none => (s, Except.error "No refresh token available")
  | some rt =>
    if !o.refreshClientConfigured then
      (s, Except.error "OAuth credentials not configured")
    else if user.officeConnectionType == some "microsoft" ||
            user.officeConnectionType == some "google" then
      match o.refresh rt with
      | Except.ok tok =>
        (updateUser s user.id (fun u =>
          { u with officeAccessToken := some tok.accessToken
                   officeRefreshToken := tok.refreshToken }), Except.ok ())
      | Except.error e =>
        (updateUser s user.id (fun u => { u with officeConnectionStatus := "error" }),
         Except.error e)
    else
      (updateUser s user.id (fun u => { u with officeConnectionStatus := "error" }),
       Except.error "Unsupported connection type")

/-- Sync statistics returned by `syncUserData`. -/
structure SyncStats where
  calendars : Nat
  contacts : Nat
deriving Repr, DecidableEq

/-- The contact loop of the Microsoft branch of `syncUserData`: for each
provider contact `(id, displayName, firstEmail, jobTitle)`, insert it only when
`getContactByName(displayName, user.id)` finds nothing; returns the updated
storage and the number inserted. -/
def processMsContacts (s : Storage) (user : User)
    (cs : List (String × String × Option String × Option String)) (n : Nat) :
    Storage × Nat :=
  match cs with
  | [] => (s, n)
  | c :: rest =>
    match getContactByName s c.2.1 (some user.id) with
    | some _ => processMsContacts s user rest n
    | none =>
      let s' := (createContact s
        { userId := user.id, name := c.2.1, email := c.2.2.1
          role := c.2.2.2, status := "offline", avatar := none
          isPrivate := some false, officeContactId := some c.1 }).1
      processMsContacts s' user rest (n + 1)

/-- The contact loop of the Google branch: each provider contact is
`(resourceName, firstDisplayName?, firstEmail?, firstOrgTitle?)`; contacts
without a truthy first display name are skipped entirely. -/
def processGContacts (s : Storage) (user : User)
    (cs : List (String × Option String × Option String × Option String)) (n : Nat) :
    Storage × Nat :=
  match cs with
  | [] => (s, n)
  | c :: rest =>
    if jsTruthyStr c.2.1 then
      match getContactByName s (c.2.1.getD "") (some user.id) with
      | some _ => processGContacts s user rest n
      | none =>
        let s' := (createContact s
          { userId := user.id, name := c.2.1.getD "", email := c.2.2.1
            role := c.2.2.2, status := "offline", avatar := none
            isPrivate := some false, officeContactId := some c.1 }).1
        processGContacts s' user rest (n + 1)
    else processGContacts s user rest n

/-- The catch-block of `syncUserData` (lines 336-351), parameterised by the
storage state reached when the error was thrown and by the recursive retry
continuation: a message containing `'401'` triggers `refreshTokenIfNeeded`
followed by a full retry (`return await this.syncUserData(user)`); a failing
refresh or any other error re-throws a wrapped sync error. -/
def syncCatch (recur : Storage → Storage × Except String SyncStats)
    (t : Storage) (user : User) (o : SyncOracles) (e : String) :
    Storage × Except String SyncStats :=
  if strIncludes e "401" then
    match refreshTokenIfNeeded t user o with
    | (t', Except.ok _) => recur t'
    | (t', Except.error re) =>
      (t', Except.error ("Sync failed - token refresh failed: " ++ re))
  else (t, Except.error ("Sync failed: " ++ e))

/-- `OfficeConnectionService.syncUserData(user)` (lines 246-352), with a fuel
parameter because its catch-block re-invokes `syncUserData` recursively.
Faithfully to the source, the recursive retry passes the *same* in-memory
`user` value: a successful `refreshTokenIfNeeded` rotates the tokens in
storage but the retry still presents the caller's stale
`user.officeAccessToken` to the provider.  Exhausted fuel is reported as the
distinguished error `"OUT_OF_FUEL"`, which the original (unbounded) recursion
can only avoid by reaching some other exit. -/
def syncUserData : Nat → Storage → User → SyncOracles →
    Storage × Except String SyncStats
  | 0, s, _, _ => (s, Except.error "OUT_OF_FUEL")
  | Nat.succ fuel, s, user, o =>
    if !hasValidConnection user then
      (s, Except.error "No valid office connection found")
    else
      let catchSync : Storage → String → Storage × Except String SyncStats :=
        fun t e => syncCatch (fun t2 => syncUserData fuel t2 user o) t user o e
      if user.officeConnectionType == some "microsoft" then
        match o.msContacts (user.officeAccessToken.getD "") with
        | Except.error e => catchSync s e
        | Except.ok cs =>
          let r := processMsContacts s user cs 0
          match o.msEvents (user.officeAccessToken.getD "") with
          | Except.error e => catchSync r.1 e
          | Except.ok evCount => (r.1, Except.ok { calendars := evCount, contacts := r.2 })
      else if user.officeConnectionType == some "google" then
        match o.gContacts (user.officeAccessToken.getD "") with
        | Except.error e => catchSync s e
        | Except.ok cs =>
          let r := processGContacts s user cs 0
          match o.gEvents (user.officeAccessToken.getD "") with
          | Except.error e => catchSync r.1 e
          | Except.ok evCount => (r.1, Except.ok { calendars := evCount, contacts := r.2 })
      else (s, Except.ok { calendars := 0, contacts := 0 })

/-- A provider event created by `createMicrosoftEvent`/`createGoogleEvent`
(`id`, join url).  The event payload built from the booking (title, start, end,
location, attendees, privacy) is passed through to the provider and does not
influence control flow, so it is not tracked. -/
structure CreatedEvent where
  id : String
  joinUrl : Option String
deriving Repr, DecidableEq

/-- What `syncBookingToOffice` resolves with. -/
structure OfficeSyncResult where
  eventId : String
  eventUrl : Option String
deriving Repr, DecidableEq

/-- `OfficeConnectionService.syncBookingToOffice(user, booking)` (lines
855-936), with the provider's create-event call as oracle.  `create*Event`
throws `Failed to create <provider> event: <body>` on a non-2xx response. -/
def syncBookingToOffice (user : User)
    (createEventResult : Except String CreatedEvent) :
    Except String OfficeSyncResult :=
  if !hasValidConnection user then
    Except.error "Office connection not available"
  else if user.officeConnectionType == some "microsoft" then
    match createEventResult with
    | Except.ok ev => Except.ok { eventId := ev.id, eventUrl := ev.joinUrl }
    | Except.error e => Except.error ("Failed to create Microsoft event: " ++ e)
  else if user.officeConnectionType == some "google" then
    match createEventResult with
    | Except.ok ev => Except.ok { eventId := ev.id, eventUrl := ev.joinUrl }
    | Except.error e => Except.error ("Failed to create Google event: " ++ e)
  else
    Except.error "Unsupported office connection type"

/-! ## `POST /api/bookings` (`src/server/routes.ts` lines 228-287) -/

/-- The JSON the handler responds with: the booking object spread together
with `_syncStatus` and (on the failure path) `_syncError`. -/
structure BookingResponse where
  booking : Booking
  syncStatus : String
  syncError : Option String
deriving Repr, DecidableEq

/-- The `POST /api/bookings` handler after a successful
`insertBookingSchema.parse`: create the booking, then best-effort sync.  The
authoritative `MemStorage` defines no `updateBooking` method, so on a
successful sync with a truthy event id the call
`storage.updateBooking(booking.id, …)` raises
`TypeError: storage.updateBooking is not a function`, which the
`catch (syncError)` arm turns into the `_syncStatus: 'failed'` response; the
created booking itself is never rolled back. -/
def postApiBookings (s : Storage) (user : User) (ib : InsertBooking)
    (createEventResult : Except String CreatedEvent) :
    Storage × BookingResponse :=
  let r := createBooking s ib
  if hasValidConnection user then
    match syncBookingToOffice user createEventResult with
    | Except.ok syncRes =>
      if syncRes.eventId ≠ "" then
        -- storage.updateBooking does not exist: TypeError, caught below
        (r.1, { booking := r.2, syncStatus := "failed"
                syncError := some "TypeError: storage.updateBooking is not a function" })
      else
        -- falsy event id: the update is skipped and syncResult carries no error
        (r.1, { booking := r.2, syncStatus := "skipped", syncError := none })
    | Except.error e =>
      (r.1, { booking := r.2, syncStatus := "failed", syncError := some e })
  else
    (r.1, { booking := r.2, syncStatus := "skipped", syncError := none })

/-! ## Deterministic slot recommender
(`generateTimeSlotSuggestions`, `src/server/services/openai.ts` 223-332) -/

/-- Numeric value of a digit string (`parseInt` on 1-2 digit captures). -/
def natOfDigits (ds : List Char) : Nat :=
  ds.foldl (fun a c => a * 10 + (c.toNat - 48)) 0

/-- `\s` characters relevant here. -/
def isSpaceChar (c : Char) : Bool :=
  c == ' ' || c == '\t' || c == '\n' || c == '\r'

/-- Greedy `\s*`. A space character can never begin `am|pm`, so maximal munch
agrees with the backtracking semantics of the source regex. -/
def skipSpaces : List Char → List Char
  | [] => []
  | c :: cs => if isSpaceChar c then skipSpaces cs else c :: cs

/-- Match the final `(am|pm)` alternation case-insensitively, returning the
lower-cased capture (`timeMatch[3]?.toLowerCase()`). -/
def matchAmPm : List Char → Option String
  | a :: m :: _ =>
    if a.toLower == 'a' && m.toLower == 'm' then some "am"
    else if a.toLower == 'p' && m.toLower == 'm' then some "pm"
    else none
  | _ => none

/-- Candidate splits for the optional minutes group `(\d{0,2})?`, in the
greedy order the regex engine tries them (two digits, one, none). -/
def minuteSplits : List Char → List (List Char × List Char)
  | c1 :: c2 :: r =>
    if c1.isDigit && c2.isDigit then [([c1, c2], r), ([c1], c2 :: r), ([], c1 :: c2 :: r)]
    else if c1.isDigit then [([c1], c2 :: r), ([], c1 :: c2 :: r)]
    else [([], c1 :: c2 :: r)]
  | [c1] => if c1.isDigit then [([c1], []), ([], [c1])] else [([], [c1])]
  | [] => [([], [])]

/-- Candidate splits for `(\d{1,2})`, greedy order. -/
def hourSplits : List Char → List (List Char × List Char)
  | c1 :: c2 :: r =>
    if c1.isDigit then
      if c2.isDigit then [([c1, c2], r), ([c1], c2 :: r)] else [([c1], c2 :: r)]
    else []
  | [c1] => if c1.isDigit then [([c1], [])] else []
  | [] => []

/-- After the hour digits: `:?` (a present colon, if skipped, would force the
minutes group, `\s*` and `am|pm` to all start at the colon character, which is
impossible — so the greedy consumption of a present colon is exact), then the
minutes group, `\s*`, `am|pm`. -/
def tryTailAt (hds rest : List Char) : Option (Nat × Nat × String) :=
  let rest2 := match rest with
    | ':' :: r => r
    | _ => rest
  (minuteSplits rest2).findSome? (fun p =>
    match matchAmPm (skipSpaces p.2) with
    | some ap => some (natOfDigits hds, natOfDigits p.1, ap)
    | none => none)

/-- One anchored attempt of `/(\d{1,2}):?(\d{0,2})?\s*(am|pm)/i`. -/
def regexMatchAt (cs : List Char) : Option (Nat × Nat × String) :=
  (hourSplits cs).findSome? (fun p => tryTailAt p.1 p.2)

/-- Leftmost match of the time regex, as `String.prototype.match` finds it.
Returns `(hours, minutes, ampm)`; an absent minutes capture is `0`
(`timeMatch[2] ? parseInt(timeMatch[2]) : 0`). -/
def regexFirstMatch : List Char → Option (Nat × Nat × String)
  | [] => none
  | c :: cs =>
    match regexMatchAt (c :: cs) with
    | some r => some r
    | none => regexFirstMatch cs

/-- Lines 230-263: the time parser of the deterministic
`generateTimeSlotSuggestions`.  `hours` starts at 12 ("Default to noon"),
`minutes` at 0; a chain of substring checks on the lower-cased string handles
a few phrasings explicitly before the general regex runs on the original
string. -/
def parseTimeStr (preferred_time : Option String) : Nat × Nat :=
  let timeStr := jsToLower (preferred_time.getD "")
  if strIncludes timeStr "12pm" || strIncludes timeStr "12:00 pm" ||
     strIncludes timeStr "noon" then (12, 0)
  else if strIncludes timeStr "12am" || strIncludes timeStr "12:00 am" ||
          strIncludes timeStr "midnight" then (0, 0)
  else if strIncludes timeStr "11am" || strIncludes timeStr "11:00 am" then (11, 0)
  else if strIncludes timeStr "1pm" || strIncludes timeStr "1:00 pm" then (13, 0)
  else if strIncludes timeStr "2pm" || strIncludes timeStr "2:00 pm" then (14, 0)
  else
    match regexFirstMatch (preferred_time.getD "").data with
    | some hma =>
      if hma.2.2 == "pm" && hma.1 != 12 then (hma.1 + 12, hma.2.1)
      else if hma.2.2 == "am" && hma.1 == 12 then (0, hma.2.1)
      else (hma.1, hma.2.1)
    | none => (12, 0)

/-- `(target - currentDay + 7) % 7`, then `0 ↦ 7` — the per-weekday arithmetic
repeated in lines 270-304.  (`currentDay` is always `getDay() ∈ [0,6]`, so the
ℕ-subtraction `target + 7 - currentDay` agrees with the JavaScript integer
expression.) -/
def weekdayDelta (target currentDay : Nat) : Nat :=
  let d := (target + 7 - currentDay) % 7
  if d = 0 then 7 else d

/-- Lines 266-307: how many days ahead of `now` the suggestion lands, from the
lower-cased `preferred_day`.  Both the missing-day and unrecognised-day cases
fall through to the final `else` branch: tomorrow. -/
def parseDayOffset (preferred_day : Option String) (currentDay : Nat) : Nat :=
  let dayStr := jsToLower (preferred_day.getD "")
  if strIncludes dayStr "tomorrow" then 1
  else if strIncludes dayStr "monday" then weekdayDelta 1 currentDay
  else if strIncludes dayStr "tuesday" then weekdayDelta 2 currentDay
  else if strIncludes dayStr "wednesday" then weekdayDelta 3 currentDay
  else if strIncludes dayStr "thursday" then weekdayDelta 4 currentDay
  else if strIncludes dayStr "friday" then weekdayDelta 5 currentDay
  else if strIncludes dayStr "saturday" then weekdayDelta 6 currentDay
  else if strIncludes dayStr "sunday" then weekdayDelta 0 currentDay
  else 1

/-- A JavaScript `Date`, as far as this code observes one: calendar day as
days since 1970-01-01 (a Thursday) and minute of day. -/
structure JSDate where
  day : Nat
  minuteOfDay : Nat
deriving Repr, DecidableEq

/-- `Date.prototype.getDay` (0 = Sunday). -/
def jsGetDay (d : JSDate) : Nat := (d.day + 4) % 7

/-- Absolute minutes since epoch. -/
def jsAbsMinutes (d : JSDate) : Nat := d.day * 1440 + d.minuteOfDay

/-- A suggested slot; instants in absolute minutes.  The source also builds a
human-readable `label` via `toLocaleDateString`, which is presentation only
and not modelled.  (The source field `end` is a Lean keyword, hence `stop`.) -/
structure TimeSlot where
  start : Nat
  stop : Nat
deriving Repr, DecidableEq

/-- The parsed booking intent (`bookingIntentSchema`). -/
structure BookingIntent where
  event_type : String
  preferred_day : Option String
  preferred_time : Option String
  time_window : Option String
  location : Option String
  duration_minutes : Nat
  invitees : List String
  notes : Option String
deriving Repr, DecidableEq

/-- The deterministic `generateTimeSlotSuggestions(intent, existingBookings)`:
`suggestedTime` starts as `new Date()` (= `now`), `setDate(now.getDate() +
offset)` moves it wholesale by the day offset, `setHours(hours, minutes, 0,
0)` overwrites the time of day, and the end is `duration_minutes` later;
`setHours`/`setMinutes` overflow normalisation is exactly absolute-minute
arithmetic.  `existingBookings` is accepted and ignored, as in the source. -/
def generateTimeSlotSuggestions (intent : BookingIntent)
    (existingBookings : List Booking) (now : JSDate) : List TimeSlot :=
  let hm := parseTimeStr intent.preferred_time
  let off := parseDayOffset intent.preferred_day (jsGetDay now)
  let startAbs := (now.day + off) * 1440 + hm.1 * 60 + hm.2
  [{ start := startAbs, stop := startAbs + intent.duration_minutes }]

/-- Modelled from the spec: the "next future occurrence" of weekday `target`
(0 = Sunday) seen from a day whose weekday is `currentDay` — the unique number
of days to add, between 1 and 7, landing on that weekday.  Used only to state
refinement theorems against the code's `weekdayDelta`. -/
def specNextOccurrence (target currentDay : Nat) : Nat :=
  if (target + 7 - currentDay) % 7 = 0 then 7 else (target + 7 - currentDay) % 7

/-- The weekday names as spelled in the source's branch conditions, indexed by
JavaScript weekday number. -/
def weekdayName : Nat → String
  | 0 => "sunday"
  | 1 => "monday"
  | 2 => "tuesday"
  | 3 => "wednesday"
  | 4 => "thursday"
  | 5 => "friday"
  | _ => "saturday"

/-! ## Canonical time phrasings and concrete fixtures used by the theorems -/

/-- Two-digit rendering of a minute value. -/
def twoDigitStr (m : Nat) : String := (if m < 10 then "0" else "") ++ toString m

/-- The canonical phrasing `"<H>:<MM> am|pm"`. -/
def longTimeForm (h m : Nat) (ap : String) : String :=
  toString h ++ ":" ++ twoDigitStr m ++ " " ++ ap

/-- The canonical phrasing `"<H>am"` / `"<H>pm"`. -/
def shortTimeForm (h : Nat) (ap : String) : String := toString h ++ ap

/-- The canonical phrasing `"<H> am"` / `"<H> pm"`. -/
def spacedTimeForm (h : Nat) (ap : String) : String := toString h ++ " " ++ ap

/-- Number of stored contacts of a user carrying a given lower-cased name. -/
def countName (l : List Contact) (uid lname : String) : Nat :=
  (l.filter (fun c => c.userId == uid && jsToLower c.name == lname)).length

/-- The `Map` counter invariant `MemStorage` maintains: the running contact id
is strictly above every stored contact id (so a `set` always appends). -/
def contactIdsFresh (s : Storage) : Prop :=
  ∀ c ∈ s.contacts, c.id < s.currentContactId

instance (s : Storage) : Decidable (contactIdsFresh s) := by
  unfold contactIdsFresh; infer_instance

/-- The intent of the spec's Tuesday scenario. -/
def exTuesdayIntent : BookingIntent :=
  { event_type := "call", preferred_day := some "tuesday"
    preferred_time := some "2pm", time_window := none, location := none
    duration_minutes := 30, invitees := [], notes := none }

/-- A user holding a valid Microsoft connection whose access token has gone
stale on the provider side. -/
def exConnectedUser : User :=
  { id := "u1", email := "u1@example.com", name := "User One"
    officeConnectionStatus := "connected"
    officeConnectionType := some "microsoft"
    officeAccessToken := some "stale-token"
    officeRefreshToken := some "refresh-token"
    officeCalendarId := some "cal-1" }

/-- Storage holding just that user. -/
def exStorage : Storage :=
  { users := [exConnectedUser], contacts := [], bookings := []
    currentContactId := 1, currentBookingId := 1 }

/-- Provider oracles for the stale-token scenario: every pull made with the
stale access token fails with an HTTP 401, while the token-refresh endpoint
keeps succeeding and handing out `"fresh-token"`. -/
def exStaleOracles : SyncOracles :=
  { msContacts := fun tok =>
      if tok == "fresh-token" then Except.ok [] else Except.error "HTTP 401 Unauthorized"
    msEvents := fun _ => Except.ok 0
    gContacts := fun _ => Except.ok []
    gEvents := fun _ => Except.ok 0
    refresh := fun _ =>
      Except.ok { accessToken := "fresh-token", refreshToken := some "refresh-token-2"
                  expiresIn := 3600 }
    refreshClientConfigured := true }

/-- A plain booking insert (no status, no external event id). -/
def exInsertBooking : InsertBooking :=
  { userId := "u1", title := "Demo booking", description := none
    startTime := 100, endTime := 160, contactId := none, type := none
    status := none, location := none, isAllDay := none, isPrivate := none
    officeEventId := none, officeEventUrl := none }

/-- A booking insert whose end precedes its start. -/
def exBackwardsInsert : InsertBooking :=
  { userId := "u1", title := "Backwards booking", description := none
    startTime := 160, endTime := 100, contactId := none, type := none
    status := none, location := none, isAllDay := none, isPrivate := none
    officeEventId := none, officeEventUrl := none }

/-- Callback oracles for a run in which both Microsoft steps succeed. -/
def exCallbackOracles : CallbackOracles :=
  { exchangeMicrosoftCode :=
      Except.ok { accessToken := "at-1", refreshToken := some "rt-1", expiresIn := 3600 }
    getMicrosoftCalendars := fun _ =>
      Except.ok [{ id := "cal-1", name := "Calendar", isDefaultCalendar := true }]
    exchangeGoogleCode := Except.error "not used"
    getGoogleUserInfo := fun _ => Except.error "not used" }

/-- Fully configured OAuth environment. -/
def exEnv : OAuthEnv :=
  { microsoftClientConfigured := true, googleCredsConfigured := true }

/-- Provider oracles whose contact listing returns two case-variant copies of
the same person (and succeeds), exercising the de-duplication path. -/
def exPullOracles : SyncOracles :=
  { msContacts := fun _ =>
      Except.ok [("mc-1", "Alice Smith", some "alice@example.com", some "PM"),
                 ("mc-2", "ALICE SMITH", some "alice2@example.com", none)]
    msEvents := fun _ => Except.ok 3
    gContacts := fun _ => Except.ok []
    gEvents := fun _ => Except.ok 0
    refresh := fun _ => Except.error "refresh not expected"
    refreshClientConfigured := true }

/-! ## Helper lemmas -/

theorem startsWithChars_refl (l : List Char) : startsWithChars l l = true := by
  induction l with
  | nil => rfl
  | cons a t ih => simp [startsWithChars, ih]

theorem containsChars_self (l : List Char) : containsChars l l = true := by
  cases l with
  | nil => rfl
  | cons a t => simp [containsChars, startsWithChars_refl]

theorem strIncludes_refl (s : String) : strIncludes s s = true := by
  unfold strIncludes
  exact containsChars_self s.data

theorem containsChars_append_self (a n : List Char) :
    containsChars n (a ++ n) = true := by
  induction a with
  | nil => simpa using containsChars_self n
  | cons c t ih =>
    cases n with
    | nil => simp [containsChars, startsWithChars]
    | cons x xs => simp [containsChars, ih]

theorem strIncludes_append_right (a b : String) : strIncludes (a ++ b) b = true := by
  unfold strIncludes
  rw [String.data_append]
  exact containsChars_append_self a.data b.data

theorem find?_bookingMapSet (l : List Booking) (b : Booking) :
    (bookingMapSet l b).find? (fun x => x.id == b.id) = some b := by
  unfold bookingMapSet
  by_cases h : l.any (fun x => x.id == b.id)
  · rw [if_pos h]
    induction l with
    | nil => simp at h
    | cons a t ih =>
      rw [List.any_cons] at h
      simp only [List.map_cons, List.find?]
      cases ha : a.id == b.id with
      | true => simp [ha]
      | false =>
        simp only [ha, Bool.false_or] at h
        simp only [ha, if_false, Bool.false_eq_true]
        exact ih h
  · rw [if_neg h]
    induction l with
    | nil => simp [List.find?]
    | cons a t ih =>
      rw [List.any_cons] at h
      simp only [Bool.or_eq_true, not_or] at h
      simp only [List.cons_append, List.find?]
      rcases h with ⟨h1, h2⟩
      simp only [Bool.not_eq_true] at h1
      simp only [h1, Bool.false_eq_true]
      exact ih (by simpa using h2)

/-! ## C6 — end > start at booking creation -/

/-- C6 counterexample: nothing in `insertBookingSchema` or
`MemStorage.createBooking` relates `endTime` to `startTime` — a booking whose
end (minute 100) precedes its start (minute 160) is created and stored. -/
theorem createBooking_stores_end_before_start :
    (createBooking exStorage exBackwardsInsert).2.endTime <
      (createBooking exStorage exBackwardsInsert).2.startTime ∧
    getBooking (createBooking exStorage exBackwardsInsert).1
        (createBooking exStorage exBackwardsInsert).2.id =
      some (createBooking exStorage exBackwardsInsert).2 := by decide

/-- C6 amended: booking creation performs no end-after-start validation at
all; `createBooking` persists the provided start/end instants exactly as
given (so in particular a payload with `endTime ≤ startTime` is accepted),
and the created booking is stored retrievably. -/
theorem createBooking_persists_times_as_given (s : Storage) (ib : InsertBooking) :
    (createBooking s ib).2.startTime = ib.startTime ∧
    (createBooking s ib).2.endTime = ib.endTime ∧
    getBooking (createBooking s ib).1 (createBooking s ib).2.id =
      some (createBooking s ib).2 := by
  refine ⟨rfl, rfl, ?_⟩
  unfold createBooking getBooking
  exact find?_bookingMapSet s.bookings _

/-! ## C7 — the deterministic time parser -/

/-- C7 counterexample: the claimed canonical mapping fails at `"11pm"`
(the `timeStr.includes('1pm')` special case fires first, yielding 13:00, not
23:00), and the default for an absent `preferred_time` is 12:00, not 14:00. -/
theorem parseTimeStr_claim_counterexample :
    parseTimeStr (some "11pm") = (13, 0) ∧ parseTimeStr (some "11pm") ≠ (23, 0) ∧
    parseTimeStr none = (12, 0) ∧ parseTimeStr none ≠ (14, 0) := by decide

/-- C7 amended: the deterministic time parser maps every canonical
`"<H>[:MM] am|pm"` phrasing (with or without a space before the meridiem) to
the standard 24-hour pair, **except** that the strings `"11pm"` and
`"11:00 pm"` are short-circuited to 13:00 by the `includes('1pm')` /
`includes('1:00 pm')` special cases; `"noon"` maps to 12:00, `"midnight"` to
00:00, and an absent or unparseable `preferred_time` defaults to 12:00
(noon), not 14:00. -/
theorem parseTimeStr_amended :
    parseTimeStr none = (12, 0) ∧
    parseTimeStr (some "gibberish") = (12, 0) ∧
    parseTimeStr (some "noon") = (12, 0) ∧
    parseTimeStr (some "midnight") = (0, 0) ∧
    parseTimeStr (some "11pm") = (13, 0) ∧
    parseTimeStr (some "11:00 pm") = (13, 0) ∧
    (∀ h < 13, ∀ m < 60, (1 ≤ h ∧ ¬(h = 11 ∧ m = 0)) →
      parseTimeStr (some (longTimeForm h m "pm")) = (if h = 12 then 12 else h + 12, m)) ∧
    (∀ h < 13, ∀ m < 60, 1 ≤ h →
      parseTimeStr (some (longTimeForm h m "am")) = (if h = 12 then 0 else h, m)) ∧
    (∀ h < 13, (1 ≤ h ∧ h ≠ 11) →
      parseTimeStr (some (shortTimeForm h "pm")) = (if h = 12 then 12 else h + 12, 0)) ∧
    (∀ h < 13, 1 ≤ h →
      parseTimeStr (some (shortTimeForm h "am")) = (if h = 12 then 0 else h, 0)) ∧
    (∀ h < 13, 1 ≤ h →
      parseTimeStr (some (spacedTimeForm h "pm")) = (if h = 12 then 12 else h + 12, 0) ∧
      parseTimeStr (some (spacedTimeForm h "am")) = (if h = 12 then 0 else h, 0)) := by
  refine ⟨by decide, by decide, by decide, by decide, by decide, by decide,
    by decide, by decide, by decide, by decide, by decide⟩

/-- Witness for `parseTimeStr_amended`: evaluated at a concrete canonical
input, `"3:30 pm"` parses to 15:30. -/
theorem parseTimeStr_amended_witness :
    parseTimeStr (some (longTimeForm 3 30 "pm")) = (15, 30) := by
  have h := parseTimeStr_amended.2.2.2.2.2.2.1 3 (by decide) 30 (by decide)
    ⟨by decide, by decide⟩
  simpa using h

/-! ## C8 — the deterministic day resolver -/

/-- C8 counterexample: the resolver is a plain substring check, not
typo-tolerant.  With today a Thursday (`getDay() = 4`), the one-character typo
`"tuesdy"` falls through every weekday branch to the default "tomorrow"
offset 1, landing on a Friday — not on the next Tuesday (offset 5). -/
theorem parseDayOffset_typo_counterexample :
    parseDayOffset (some "tuesdy") 4 = 1 ∧
    (4 + parseDayOffset (some "tuesdy") 4) % 7 ≠ 2 ∧
    specNextOccurrence 2 4 = 5 := by decide

/-- C8 amended: `preferred_day` is matched against the weekday names by
case-insensitive *substring inclusion* (no typo tolerance); a recognized
weekday resolves to its next future occurrence — between 1 and 7 days ahead,
never the same day — and anything unrecognized (including absent days and
one-character typos) defaults to tomorrow. -/
theorem parseDayOffset_amended :
    (∀ cur < 7, ∀ i < 7,
      parseDayOffset (some (weekdayName i)) cur = specNextOccurrence i cur ∧
      1 ≤ parseDayOffset (some (weekdayName i)) cur ∧
      parseDayOffset (some (weekdayName i)) cur ≤ 7 ∧
      (cur + parseDayOffset (some (weekdayName i)) cur) % 7 = i ∧
      parseDayOffset (some (String.mk ((weekdayName i).data.map Char.toUpper))) cur =
        parseDayOffset (some (weekdayName i)) cur) ∧
    (∀ cur < 7,
      parseDayOffset none cur = 1 ∧
      parseDayOffset (some "someday") cur = 1 ∧
      parseDayOffset (some "tuesdy") cur = 1) := by
  refine ⟨by decide, by decide⟩

/-- Witness for `parseDayOffset_amended`: from a Thursday, "tuesday" resolves
five days ahead and an absent day to tomorrow. -/
theorem parseDayOffset_amended_witness :
    parseDayOffset (some (weekdayName 2)) 4 = specNextOccurrence 2 4 ∧
    parseDayOffset none 4 = 1 :=
  ⟨(parseDayOffset_amended.1 4 (by decide) 2 (by decide)).1,
   (parseDayOffset_amended.2 4 (by decide)).1⟩

/-! ## C9 — the Tuesday-at-2pm scenario -/

theorem weekdayDelta_eq (target cur : Nat) :
    weekdayDelta target cur =
      if (target + 7 - cur) % 7 = 0 then 7 else (target + 7 - cur) % 7 := rfl

/-- C9: for the intent `{event_type: "call", preferred_day: "tuesday",
preferred_time: "2pm", duration_minutes: 30}` and no existing bookings, the
deterministic recommender returns exactly one slot, starting at 14:00 on the
next upcoming Tuesday (strictly after today, at most 7 days ahead, weekday 2)
and ending 30 minutes later — for every possible "now". -/
theorem generateTimeSlotSuggestions_tuesday_scenario (now : JSDate) :
    ∃ s, generateTimeSlotSuggestions exTuesdayIntent [] now =
        [{ start := s, stop := s + 30 }] ∧
      s % 1440 = 14 * 60 ∧
      now.day < s / 1440 ∧ s / 1440 ≤ now.day + 7 ∧
      (s / 1440 + 4) % 7 = 2 := by
  have hday : parseDayOffset (some "tuesday") ((now.day + 4) % 7) =
      weekdayDelta 2 ((now.day + 4) % 7) := rfl
  have htime : parseTimeStr (some "2pm") = (14, 0) := rfl
  have hgd : jsGetDay now = (now.day + 4) % 7 := rfl
  refine ⟨(now.day + weekdayDelta 2 ((now.day + 4) % 7)) * 1440 + 840,
    ?_, ?_, ?_, ?_, ?_⟩
  · simp only [generateTimeSlotSuggestions, exTuesdayIntent, hgd, hday, htime]
  · rw [weekdayDelta_eq]; split <;> omega
  · rw [weekdayDelta_eq]; split <;> omega
  · rw [weekdayDelta_eq]; split <;> omega
  · rw [weekdayDelta_eq]; split <;> omega

/-! ## C10 — recommended slots lie strictly in the future -/

theorem weekdayDelta_pos (target cur : Nat) : 1 ≤ weekdayDelta target cur := by
  rw [weekdayDelta_eq]
  split <;> omega

theorem parseDayOffset_pos (d : Option String) (cur : Nat) :
    1 ≤ parseDayOffset d cur := by
  simp only [parseDayOffset]
  repeat' split
  all_goals first
    | omega
    | exact weekdayDelta_pos _ _

/-- C10: whatever `preferred_day`/`preferred_time` the intent carries
(recognized or not), every slot the deterministic recommender returns starts
strictly after "now" as observed at call time — every day branch moves at
least one calendar day ahead. -/
theorem generateTimeSlotSuggestions_future (intent : BookingIntent)
    (existingBookings : List Booking) (now : JSDate)
    (hnow : now.minuteOfDay < 1440) :
    ∀ slot ∈ generateTimeSlotSuggestions intent existingBookings now,
      jsAbsMinutes now < slot.start := by
  intro slot hslot
  have hoff := parseDayOffset_pos intent.preferred_day (jsGetDay now)
  simp only [generateTimeSlotSuggestions, List.mem_singleton] at hslot
  subst hslot
  simp only [jsAbsMinutes]
  set off := parseDayOffset intent.preferred_day (jsGetDay now) with hoffdef
  have : (now.day + off) * 1440 = now.day * 1440 + off * 1440 := by ring
  omega

/-- Witness for `generateTimeSlotSuggestions_future` at a concrete call:
Thursday 1970-01-01 10:00, Tuesday-2pm intent. -/
theorem generateTimeSlotSuggestions_future_witness :
    jsAbsMinutes { day := 0, minuteOfDay := 600 } <
      TimeSlot.start { start := 8040, stop := 8070 } :=
  generateTimeSlotSuggestions_future exTuesdayIntent []
    { day := 0, minuteOfDay := 600 } (by decide)
    { start := 8040, stop := 8070 } (by decide)

/-! ## C2 — sync failure never fails booking creation -/

theorem syncBookingToOffice_error (user : User) (e : String) :
    ∃ m, syncBookingToOffice user (Except.error e) = Except.error m := by
  unfold syncBookingToOffice
  repeat' split
  all_goals first
    | exact ⟨_, rfl⟩
    | (rename_i heq; exact absurd heq (by simp))

/-- C2: when pushing a freshly created booking to the provider throws, the
`POST /api/bookings` handler still creates and persists the booking; the
persisted booking keeps `status = 'scheduled'` and `officeEventId = null`, and
the response reports the created booking together with `_syncStatus: 'failed'`
and the sync error, instead of rolling anything back. -/
theorem postApiBookings_sync_failure_keeps_booking
    (s : Storage) (user : User) (ib : InsertBooking) (e : String)
    (hconn : hasValidConnection user = true)
    (hstatus : ib.status = none) (heid : ib.officeEventId = none) :
    getBooking (postApiBookings s user ib (Except.error e)).1 s.currentBookingId =
      some (postApiBookings s user ib (Except.error e)).2.booking ∧
    (postApiBookings s user ib (Except.error e)).2.booking.status = "scheduled" ∧
    (postApiBookings s user ib (Except.error e)).2.booking.officeEventId = none ∧
    (postApiBookings s user ib (Except.error e)).2.syncStatus = "failed" ∧
    (postApiBookings s user ib (Except.error e)).2.syncError.isSome = true := by
  obtain ⟨m, hm⟩ := syncBookingToOffice_error user e
  have hpost : postApiBookings s user ib (Except.error e) =
      ((createBooking s ib).1,
       { booking := (createBooking s ib).2, syncStatus := "failed"
         syncError := some m }) := by
    unfold postApiBookings
    rw [hconn, hm]
    simp
  have hstat : (createBooking s ib).2.status = jsOrStr ib.status "scheduled" := rfl
  have hoeid : (createBooking s ib).2.officeEventId = jsOrNullStr ib.officeEventId := rfl
  rw [hpost]
  refine ⟨?_, ?_, ?_, rfl, rfl⟩
  · exact find?_bookingMapSet s.bookings (createBooking s ib).2
  · rw [hstat, hstatus]; rfl
  · rw [hoeid, heid]; rfl

/-- Witness for `postApiBookings_sync_failure_keeps_booking` at a concrete
connected user and failing provider push. -/
theorem postApiBookings_sync_failure_witness :
    getBooking (postApiBookings exStorage exConnectedUser exInsertBooking
        (Except.error "boom")).1 exStorage.currentBookingId =
      some (postApiBookings exStorage exConnectedUser exInsertBooking
        (Except.error "boom")).2.booking ∧
    (postApiBookings exStorage exConnectedUser exInsertBooking
        (Except.error "boom")).2.booking.status = "scheduled" ∧
    (postApiBookings exStorage exConnectedUser exInsertBooking
        (Except.error "boom")).2.booking.officeEventId = none ∧
    (postApiBookings exStorage exConnectedUser exInsertBooking
        (Except.error "boom")).2.syncStatus = "failed" ∧
    (postApiBookings exStorage exConnectedUser exInsertBooking
        (Except.error "boom")).2.syncError.isSome = true :=
  postApiBookings_sync_failure_keeps_booking exStorage exConnectedUser
    exInsertBooking "boom" (by decide) rfl rfl

/-! ## C4 — round-trip of the external event id -/

/-- C4: the round-trip fails in the shipped code.  With a connected user and a
provider `createEvent` that succeeds returning event id `"evt_1"`, the handler
calls `storage.updateBooking`, a method the authoritative `MemStorage` does
not define; the resulting `TypeError` is swallowed by the sync `catch`, so the
re-fetched booking still has `officeEventId = null` and the response reports
`_syncStatus: 'failed'` — the value returned by `createEvent` is never
persisted. -/
theorem postApiBookings_success_eventId_never_persisted :
    ((getBooking (postApiBookings exStorage exConnectedUser exInsertBooking
        (Except.ok { id := "evt_1", joinUrl := some "https://example.test/join" })).1
        1).map (fun b => b.officeEventId)) = some none ∧
    (postApiBookings exStorage exConnectedUser exInsertBooking
        (Except.ok { id := "evt_1", joinUrl := some "https://example.test/join" })).2.syncStatus
      = "failed" ∧
    (postApiBookings exStorage exConnectedUser exInsertBooking
        (Except.ok { id := "evt_1", joinUrl := some "https://example.test/join" })).2.syncError
      = some "TypeError: storage.updateBooking is not a function" := by decide

/-! ## C3 — the 401 retry in `syncUserData` is not capped -/

/-- C3: the 401-retry is *not* capped at one.  With a connected Microsoft user
whose stored access token the provider rejects with `401` on every pull, while
the refresh endpoint keeps succeeding, the retry recursion never exits: the
catch-block re-invokes `syncUserData` with the same in-memory `user` (whose
`officeAccessToken` is still the stale one — the refreshed token only went to
storage), so the retried pull fails with `401` again, triggering another
refresh and another retry, for as many rounds as one cares to unfold (every
fuel bound is exhausted).  The spec's "retried exactly once, second failure
surfaced as a sync error with the connection marked error" does not happen. -/
theorem syncUserData_unbounded_retry (fuel : Nat) :
    ∀ s : Storage,
      (syncUserData fuel s exConnectedUser exStaleOracles).2 =
        Except.error "OUT_OF_FUEL" := by
  induction fuel with
  | zero => intro s; rfl
  | succ n ih =>
    intro s
    have hstep : syncUserData (n + 1) s exConnectedUser exStaleOracles =
        syncUserData n
          (updateUser s "u1" (fun u =>
            { u with officeAccessToken := some "fresh-token"
                     officeRefreshToken := some "refresh-token-2" }))
          exConnectedUser exStaleOracles := rfl
    rw [hstep]
    exact ih _

/-! ## C1 — `handleCallback` writes `connected` only on full success -/

theorem find?_map_update (l : List User) (userId : String) (p : User → User)
    (hid : ∀ u, (p u).id = u.id) :
    (l.map (fun u => if u.id == userId then p u else u)).find?
        (fun u => u.id == userId) =
      (l.find? (fun u => u.id == userId)).map p := by
  induction l with
  | nil => rfl
  | cons a t ih =>
    cases ha : a.id == userId with
    | true =>
      have hpa : ((p a).id == userId) = true := by rw [hid a]; exact ha
      simp [List.find?, ha, hpa]
    | false =>
      simp only [List.map_cons, List.find?, ha, Bool.false_eq_true, if_false]
      exact ih

theorem connStatus_updateUser (s : Storage) (userId : String) (p : User → User)
    (hid : ∀ u, (p u).id = u.id) :
    connStatus (updateUser s userId p) userId =
      (s.users.find? (fun u => u.id == userId)).map
        (fun u => (p u).officeConnectionStatus) := by
  show ((s.users.map (fun u => if u.id == userId then p u else u)).find?
      (fun u => u.id == userId)).map (fun u => u.officeConnectionStatus) = _
  rw [find?_map_update s.users userId p hid]
  cases s.users.find? (fun u => u.id == userId) <;> rfl

theorem connStatus_updateUser_const (s : Storage) (userId : String)
    (p : User → User) (hid : ∀ u, (p u).id = u.id) (c : String)
    (hc : ∀ u, (p u).officeConnectionStatus = c)
    (hex : (s.users.find? (fun u => u.id == userId)).isSome = true) :
    connStatus (updateUser s userId p) userId = some c := by
  rw [connStatus_updateUser s userId p hid]
  cases hfind : s.users.find? (fun u => u.id == userId) with
  | none => rw [hfind] at hex; cases hex
  | some u => simp [hc u]

/-- C1: `handleCallback` (the `completeConnection` step) writes
`status = 'connected'` only when both the code-for-token exchange and the
primary-calendar / account discovery succeed; any failure inside either step
instead writes `status = 'error'` for that user — never leaving the previous
state silently in place and never ending `connected` — and the re-raised
error message carries the underlying cause as a substring. -/
theorem handleCallback_atomic (s : Storage) (userId : String) (env : OAuthEnv)
    (o : CallbackOracles) (ctype : String)
    (hexists : (s.users.find? (fun u => u.id == userId)).isSome = true)
    (hty : ctype = "microsoft" ∨ ctype = "google")
    (hcfg : (ctype = "microsoft" → env.microsoftClientConfigured = true) ∧
            (ctype = "google" → env.googleCredsConfigured = true)) :
    (∀ sum, (handleCallback s userId ctype env o).2 = Except.ok sum →
      connStatus (handleCallback s userId ctype env o).1 userId = some "connected" ∧
      (ctype = "microsoft" →
        ∃ tok cals cal, o.exchangeMicrosoftCode = Except.ok tok ∧
          o.getMicrosoftCalendars tok.accessToken = Except.ok cals ∧
          pickPrimaryCalendar cals = some cal) ∧
      (ctype = "google" →
        ∃ tok info, o.exchangeGoogleCode = Except.ok tok ∧
          o.getGoogleUserInfo tok.accessToken = Except.ok info)) ∧
    (∀ m, (handleCallback s userId ctype env o).2 = Except.error m →
      connStatus (handleCallback s userId ctype env o).1 userId = some "error" ∧
      ∃ e, strIncludes m e = true ∧
        (o.exchangeMicrosoftCode = Except.error e ∨
         (∃ tok, o.exchangeMicrosoftCode = Except.ok tok ∧
            o.getMicrosoftCalendars tok.accessToken = Except.error e) ∨
         e = "No calendar found" ∨
         o.exchangeGoogleCode = Except.error e ∨
         (∃ tok, o.exchangeGoogleCode = Except.ok tok ∧
            o.getGoogleUserInfo tok.accessToken = Except.error e))) := by
  rcases hty with hty | hty <;> subst hty
  · -- Microsoft branch
    have hcfg1 := hcfg.1 rfl
    cases hx : o.exchangeMicrosoftCode with
    | error e =>
      have hred : handleCallback s userId "microsoft" env o =
          msCallbackCatch s userId e := by
        simp [handleCallback, hcfg1, hx]
      rw [hred]
      constructor
      · intro sum hsum; simp [msCallbackCatch] at hsum
      · intro m hm
        simp only [msCallbackCatch, Except.error.injEq] at hm
        subst hm
        refine ⟨?_, e, strIncludes_append_right _ e, Or.inl rfl⟩
        apply connStatus_updateUser_const
        · intro u; rfl
        · intro u; rfl
        · exact hexists
    | ok tok =>
      cases hc : o.getMicrosoftCalendars tok.accessToken with
      | error e =>
        have hred : handleCallback s userId "microsoft" env o =
            msCallbackCatch s userId e := by
          simp [handleCallback, hcfg1, hx, hc]
        rw [hred]
        constructor
        · intro sum hsum; simp [msCallbackCatch] at hsum
        · intro m hm
          simp only [msCallbackCatch, Except.error.injEq] at hm
          subst hm
          refine ⟨?_, e, strIncludes_append_right _ e,
            Or.inr (Or.inl ⟨tok, rfl, hc⟩)⟩
          apply connStatus_updateUser_const
          · intro u; rfl
          · intro u; rfl
          · exact hexists
      | ok cals =>
        cases hp : pickPrimaryCalendar cals with
        | none =>
          have hred : handleCallback s userId "microsoft" env o =
              msCallbackCatch s userId "No calendar found" := by
            simp [handleCallback, hcfg1, hx, hc, hp]
          rw [hred]
          constructor
          · intro sum hsum; simp [msCallbackCatch] at hsum
          · intro m hm
            simp only [msCallbackCatch, Except.error.injEq] at hm
            subst hm
            refine ⟨?_, "No calendar found",
              strIncludes_append_right _ _, Or.inr (Or.inr (Or.inl rfl))⟩
            apply connStatus_updateUser_const
            · intro u; rfl
            · intro u; rfl
            · exact hexists
        | some cal =>
          have hred : handleCallback s userId "microsoft" env o =
              (updateUser s userId (fun u =>
                { u with officeConnectionStatus := "connected"
                         officeConnectionType := some "microsoft"
                         officeAccessToken := some tok.accessToken
                         officeRefreshToken := tok.refreshToken
                         officeCalendarId := some cal.id }),
               Except.ok
                 { ctype := "microsoft", status := "connected"
                   calendarName := cal.name
                   message := "Microsoft Outlook connected successfully" }) := by
            simp [handleCallback, hcfg1, hx, hc, hp]
          rw [hred]
          constructor
          · intro sum hsum
            refine ⟨?_, fun _ => ⟨tok, cals, cal, rfl, hc, hp⟩, fun hgoogle => ?_⟩
            · apply connStatus_updateUser_const
              · intro u; rfl
              · intro u; rfl
              · exact hexists
            · exact absurd hgoogle (by decide)
          · intro m hm; simp at hm
  · -- Google branch
    have hcfg2 := hcfg.2 rfl
    cases hx : o.exchangeGoogleCode with
    | error e =>
      have hred : handleCallback s userId "google" env o =
          gCallbackCatch s userId e := by
        simp [handleCallback, hcfg2, hx]
      rw [hred]
      constructor
      · intro sum hsum; simp [gCallbackCatch] at hsum
      · intro m hm
        simp only [gCallbackCatch, Except.error.injEq] at hm
        subst hm
        refine ⟨?_, e, strIncludes_append_right _ e,
          Or.inr (Or.inr (Or.inr (Or.inl rfl)))⟩
        apply connStatus_updateUser_const
        · intro u; rfl
        · intro u; rfl
        · exact hexists
    | ok tok =>
      cases hg : o.getGoogleUserInfo tok.accessToken with
      | error e =>
        have hred : handleCallback s userId "google" env o =
            gCallbackCatch s userId e := by
          simp [handleCallback, hcfg2, hx, hg]
        rw [hred]
        constructor
        · intro sum hsum; simp [gCallbackCatch] at hsum
        · intro m hm
          simp only [gCallbackCatch, Except.error.injEq] at hm
          subst hm
          refine ⟨?_, e, strIncludes_append_right _ e,
            Or.inr (Or.inr (Or.inr (Or.inr ⟨tok, rfl, hg⟩)))⟩
          apply connStatus_updateUser_const
          · intro u; rfl
          · intro u; rfl
          · exact hexists
      | ok info =>
        have hred : handleCallback s userId "google" env o =
            (updateUser s userId (fun u =>
              { u with officeConnectionStatus := "connected"
                       officeConnectionType := some "google"
                       officeAccessToken := some tok.accessToken
                       officeRefreshToken := tok.refreshToken
                       officeCalendarId := some "primary" }),
             Except.ok
               { ctype := "google", status := "connected"
                 calendarName := "Google Calendar"
                 message := "Google Calendar connected successfully" }) := by
          simp [handleCallback, hcfg2, hx, hg]
        rw [hred]
        constructor
        · intro sum hsum
          refine ⟨?_, fun hms => absurd hms (by decide), fun _ => ⟨tok, info, rfl, hg⟩⟩
          apply connStatus_updateUser_const
          · intro u; rfl
          · intro u; rfl
          · exact hexists
        · intro m hm; simp at hm

/-- Witness for `handleCallback_atomic`: a concrete Microsoft run in which
both steps succeed. -/
theorem handleCallback_atomic_witness :
    (∀ sum, (handleCallback exStorage "u1" "microsoft" exEnv exCallbackOracles).2 =
        Except.ok sum →
      connStatus (handleCallback exStorage "u1" "microsoft" exEnv
        exCallbackOracles).1 "u1" = some "connected" ∧
      ("microsoft" = "microsoft" →
        ∃ tok cals cal,
          exCallbackOracles.exchangeMicrosoftCode = Except.ok tok ∧
          exCallbackOracles.getMicrosoftCalendars tok.accessToken = Except.ok cals ∧
          pickPrimaryCalendar cals = some cal) ∧
      ("microsoft" = "google" →
        ∃ tok info, exCallbackOracles.exchangeGoogleCode = Except.ok tok ∧
          exCallbackOracles.getGoogleUserInfo tok.accessToken = Except.ok info)) ∧
    (∀ m, (handleCallback exStorage "u1" "microsoft" exEnv exCallbackOracles).2 =
        Except.error m →
      connStatus (handleCallback exStorage "u1" "microsoft" exEnv
        exCallbackOracles).1 "u1" = some "error" ∧
      ∃ e, strIncludes m e = true ∧
        (exCallbackOracles.exchangeMicrosoftCode = Except.error e ∨
         (∃ tok, exCallbackOracles.exchangeMicrosoftCode = Except.ok tok ∧
            exCallbackOracles.getMicrosoftCalendars tok.accessToken = Except.error e) ∨
         e = "No calendar found" ∨
         exCallbackOracles.exchangeGoogleCode = Except.error e ∨
         (∃ tok, exCallbackOracles.exchangeGoogleCode = Except.ok tok ∧
            exCallbackOracles.getGoogleUserInfo tok.accessToken = Except.error e))) :=
  handleCallback_atomic exStorage "u1" exEnv exCallbackOracles "microsoft"
    (by decide) (Or.inl rfl) ⟨fun _ => rfl, fun h => absurd h (by decide)⟩

/-! ## C5 — the contacts pull never creates duplicate names -/

theorem countName_append (l : List Contact) (c : Contact) (uid lname : String) :
    countName (l ++ [c]) uid lname =
      countName l uid lname +
        (if c.userId == uid && jsToLower c.name == lname then 1 else 0) := by
  unfold countName
  rw [List.filter_append]
  simp only [List.length_append]
  congr 1
  by_cases h : (c.userId == uid && jsToLower c.name == lname) = true
  · simp [List.filter, h]
  · simp only [Bool.not_eq_true] at h
    simp [List.filter, h]

theorem contactMapSet_fresh (l : List Contact) (c : Contact)
    (h : ∀ x ∈ l, x.id < c.id) : contactMapSet l c = l ++ [c] := by
  unfold contactMapSet
  rw [if_neg]
  simp only [List.any_eq_true, not_exists, not_and]
  intro x hx
  have := h x hx
  simp only [beq_iff_eq]
  omega

theorem createContact_contacts (s : Storage) (ic : InsertContact)
    (hf : contactIdsFresh s) :
    (createContact s ic).1.contacts = s.contacts ++ [(createContact s ic).2] := by
  exact congrArg (fun l => l) (contactMapSet_fresh s.contacts _ (fun x hx => hf x hx))

theorem createContact_fresh (s : Storage) (ic : InsertContact)
    (hf : contactIdsFresh s) : contactIdsFresh (createContact s ic).1 := by
  intro c hc
  rw [show (createContact s ic).1.contacts =
        contactMapSet s.contacts (createContact s ic).2 from rfl] at hc
  rw [contactMapSet_fresh s.contacts _ (fun x hx => hf x hx)] at hc
  rw [List.mem_append] at hc
  rcases hc with hc | hc
  · have := hf c hc
    show c.id < s.currentContactId + 1
    omega
  · rw [List.mem_singleton] at hc
    subst hc
    show s.currentContactId < s.currentContactId + 1
    omega

theorem getContactByName_none_countName (s : Storage) (name uid : String)
    (h : getContactByName s name (some uid) = none) :
    countName s.contacts uid (jsToLower name) = 0 := by
  unfold countName
  rw [List.length_eq_zero, List.filter_eq_nil_iff]
  intro c hc hpc
  unfold getContactByName at h
  rw [List.find?_eq_none] at h
  apply h c hc
  simp only [Bool.and_eq_true] at hpc
  obtain ⟨h1, h2⟩ := hpc
  have hname : jsToLower c.name = jsToLower name := eq_of_beq h2
  rw [Bool.and_eq_true]
  refine ⟨by rw [hname]; exact strIncludes_refl _, ?_⟩
  by_cases huid : uid = ""
  · simp [huid]
  · simp only [if_neg huid]
    exact h1

theorem processMsContacts_preserves
    (cs : List (String × String × Option String × Option String)) :
    ∀ (s : Storage) (u : User) (n : Nat),
      contactIdsFresh s →
      (∀ lname, countName (processMsContacts s u cs n).1.contacts u.id lname ≤
        max 1 (countName s.contacts u.id lname)) ∧
      contactIdsFresh (processMsContacts s u cs n).1 := by
  induction cs with
  | nil =>
    intro s u n hf
    exact ⟨fun lname => le_max_right 1 _, hf⟩
  | cons c rest ih =>
    intro s u n hf
    unfold processMsContacts
    cases hg : getContactByName s c.2.1 (some u.id) with
    | some x => exact ih s u n hf
    | none =>
      have hnew : (createContact s
          { userId := u.id, name := c.2.1, email := c.2.2.1
            role := c.2.2.2, status := "offline", avatar := none
            isPrivate := some false, officeContactId := some c.1 }).2.userId = u.id := rfl
      have hfc := createContact_fresh s
        { userId := u.id, name := c.2.1, email := c.2.2.1
          role := c.2.2.2, status := "offline", avatar := none
          isPrivate := some false, officeContactId := some c.1 } hf
      obtain ⟨ihcount, ihfresh⟩ := ih _ u (n + 1) hfc
      refine ⟨fun lname => ?_, ihfresh⟩
      have hstep := ihcount lname
      have hcc := createContact_contacts s
        { userId := u.id, name := c.2.1, email := c.2.2.1
          role := c.2.2.2, status := "offline", avatar := none
          isPrivate := some false, officeContactId := some c.1 } hf
      rw [hcc, countName_append] at hstep
      by_cases hmatch : ((createContact s
          { userId := u.id, name := c.2.1, email := c.2.2.1
            role := c.2.2.2, status := "offline", avatar := none
            isPrivate := some false, officeContactId := some c.1 }).2.userId == u.id &&
          jsToLower (createContact s
          { userId := u.id, name := c.2.1, email := c.2.2.1
            role := c.2.2.2, status := "offline", avatar := none
            isPrivate := some false, officeContactId := some c.1 }).2.name == lname) = true
      · rw [if_pos hmatch] at hstep
        rw [Bool.and_eq_true] at hmatch
        have hlname : jsToLower c.2.1 = lname := eq_of_beq hmatch.2
        have h0 : countName s.contacts u.id lname = 0 := by
          rw [← hlname]
          exact getContactByName_none_countName s c.2.1 u.id hg
        rw [h0] at hstep
        rw [le_max_iff]
        left
        simpa using hstep
      · rw [if_neg hmatch] at hstep
        simpa using hstep

theorem processGContacts_preserves
    (cs : List (String × Option String × Option String × Option String)) :
    ∀ (s : Storage) (u : User) (n : Nat),
      contactIdsFresh s →
      (∀ lname, countName (processGContacts s u cs n).1.contacts u.id lname ≤
        max 1 (countName s.contacts u.id lname)) ∧
      contactIdsFresh (processGContacts s u cs n).1 := by
  induction cs with
  | nil =>
    intro s u n hf
    exact ⟨fun lname => le_max_right 1 _, hf⟩
  | cons c rest ih =>
    intro s u n hf
    unfold processGContacts
    by_cases ht : jsTruthyStr c.2.1 = true
    case neg =>
      rw [if_neg ht]
      exact ih s u n hf
    case pos =>
    rw [if_pos ht]
    cases hg : getContactByName s (c.2.1.getD "") (some u.id) with
    | some x => exact ih s u n hf
    | none =>
      have hfc := createContact_fresh s
        { userId := u.id, name := c.2.1.getD "", email := c.2.2.1
          role := c.2.2.2, status := "offline", avatar := none
          isPrivate := some false, officeContactId := some c.1 } hf
      obtain ⟨ihcount, ihfresh⟩ := ih _ u (n + 1) hfc
      refine ⟨fun lname => ?_, ihfresh⟩
      have hstep := ihcount lname
      have hcc := createContact_contacts s
        { userId := u.id, name := c.2.1.getD "", email := c.2.2.1
          role := c.2.2.2, status := "offline", avatar := none
          isPrivate := some false, officeContactId := some c.1 } hf
      rw [hcc, countName_append] at hstep
      by_cases hmatch : ((createContact s
          { userId := u.id, name := c.2.1.getD "", email := c.2.2.1
            role := c.2.2.2, status := "offline", avatar := none
            isPrivate := some false, officeContactId := some c.1 }).2.userId == u.id &&
          jsToLower (createContact s
          { userId := u.id, name := c.2.1.getD "", email := c.2.2.1
            role := c.2.2.2, status := "offline", avatar := none
            isPrivate := some false, officeContactId := some c.1 }).2.name == lname) = true
      · rw [if_pos hmatch] at hstep
        rw [Bool.and_eq_true] at hmatch
        have hlname : jsToLower (c.2.1.getD "") = lname := eq_of_beq hmatch.2
        have h0 : countName s.contacts u.id lname = 0 := by
          rw [← hlname]
          exact getContactByName_none_countName s (c.2.1.getD "") u.id hg
        rw [h0] at hstep
        rw [le_max_iff]
        left
        simpa using hstep
      · rw [if_neg hmatch] at hstep
        simpa using hstep

theorem refreshTokenIfNeeded_state (s : Storage) (u : User) (o : SyncOracles) :
    ((refreshTokenIfNeeded s u o).1).contacts = s.contacts ∧
    ((refreshTokenIfNeeded s u o).1).currentContactId = s.currentContactId := by
  unfold refreshTokenIfNeeded
  repeat' split
  all_goals exact ⟨rfl, rfl⟩

theorem contactIdsFresh_of_eq (s t : Storage) (hc : t.contacts = s.contacts)
    (hn : t.currentContactId = s.currentContactId) (hf : contactIdsFresh s) :
    contactIdsFresh t := by
  intro c hcm
  rw [hc] at hcm
  rw [hn]
  exact hf c hcm

theorem le_max_one_trans {a b c : Nat} (h1 : a ≤ max 1 b) (h2 : b ≤ max 1 c) :
    a ≤ max 1 c := by
  rcases le_max_iff.mp h1 with h | h
  · exact le_max_iff.mpr (Or.inl h)
  · exact le_trans h h2

theorem syncCatch_preserves (recur : Storage → Storage × Except String SyncStats)
    (t : Storage) (u : User) (o : SyncOracles) (e : String)
    (hf : contactIdsFresh t)
    (hrec : ∀ t', contactIdsFresh t' →
      (∀ lname, countName (recur t').1.contacts u.id lname ≤
        max 1 (countName t'.contacts u.id lname)) ∧
      contactIdsFresh (recur t').1) :
    (∀ lname, countName (syncCatch recur t u o e).1.contacts u.id lname ≤
      max 1 (countName t.contacts u.id lname)) ∧
    contactIdsFresh (syncCatch recur t u o e).1 := by
  unfold syncCatch
  split
  · cases hr : refreshTokenIfNeeded t u o with
    | mk t' res =>
      obtain ⟨hrc, hrn⟩ := refreshTokenIfNeeded_state t u o
      rw [hr] at hrc hrn
      have hft' : contactIdsFresh t' := contactIdsFresh_of_eq t t' hrc hrn hf
      cases res with
      | ok v =>
        obtain ⟨hcount, hfr⟩ := hrec t' hft'
        refine ⟨fun lname => ?_, hfr⟩
        rw [← hrc]
        exact hcount lname
      | error re =>
        exact ⟨fun lname => by rw [hrc]; exact le_max_right 1 _, hft'⟩
  · exact ⟨fun lname => le_max_right 1 _, hf⟩

theorem syncUserData_preserves (fuel : Nat) :
    ∀ (s : Storage) (u : User) (o : SyncOracles),
      contactIdsFresh s →
      (∀ lname, countName ((syncUserData fuel s u o).1).contacts u.id lname ≤
        max 1 (countName s.contacts u.id lname)) ∧
      contactIdsFresh (syncUserData fuel s u o).1 := by
  induction fuel with
  | zero => intro s u o hf; exact ⟨fun _ => le_max_right 1 _, hf⟩
  | succ n ih =>
    intro s u o hf
    simp only [syncUserData]
    split
    · exact ⟨fun _ => le_max_right 1 _, hf⟩
    split
    · -- Microsoft branch
      cases hms : o.msContacts (u.officeAccessToken.getD "") with
      | error e =>
        exact syncCatch_preserves _ s u o e hf (fun t' hft' => ih t' u o hft')
      | ok cs =>
        obtain ⟨hpc, hpf⟩ := processMsContacts_preserves cs s u 0 hf
        cases hev : o.msEvents (u.officeAccessToken.getD "") with
        | error e =>
          have hcatch := syncCatch_preserves
            (fun t2 => syncUserData n t2 u o)
            (processMsContacts s u cs 0).1 u o e hpf
            (fun t' hft' => ih t' u o hft')
          exact ⟨fun lname => le_max_one_trans (hcatch.1 lname) (hpc lname),
            hcatch.2⟩
        | ok evCount => exact ⟨hpc, hpf⟩
    split
    · -- Google branch
      cases hgc : o.gContacts (u.officeAccessToken.getD "") with
      | error e =>
        exact syncCatch_preserves _ s u o e hf (fun t' hft' => ih t' u o hft')
      | ok cs =>
        obtain ⟨hpc, hpf⟩ := processGContacts_preserves cs s u 0 hf
        cases hev : o.gEvents (u.officeAccessToken.getD "") with
        | error e =>
          have hcatch := syncCatch_preserves
            (fun t2 => syncUserData n t2 u o)
            (processGContacts s u cs 0).1 u o e hpf
            (fun t' hft' => ih t' u o hft')
          exact ⟨fun lname => le_max_one_trans (hcatch.1 lname) (hpc lname),
            hcatch.2⟩
        | ok evCount => exact ⟨hpc, hpf⟩
    · exact ⟨fun _ => le_max_right 1 _, hf⟩

/-- C5: the contacts pull is duplicate-free and idempotent on names.  For any
two sequential invocations of `syncUserData` with identical provider data
(the same oracles), any user/lower-cased-name pair that ends up on two or
more stored contacts was already duplicated before the pulls: the pull only
inserts a provider contact when `getContactByName` finds no existing match
for that user, and an equal (case-insensitive) name always matches, so
repeated syncs never grow a name beyond one copy. -/
theorem syncUserData_twice_no_duplicate_names (fuel : Nat) (s : Storage)
    (user : User) (o : SyncOracles) (lname : String)
    (hfresh : contactIdsFresh s) :
    countName ((syncUserData fuel (syncUserData fuel s user o).1 user o).1).contacts
        user.id lname ≤
      max 1 (countName s.contacts user.id lname) := by
  obtain ⟨h1, hf1⟩ := syncUserData_preserves fuel s user o hfresh
  obtain ⟨h2, _⟩ :=
    syncUserData_preserves fuel (syncUserData fuel s user o).1 user o hf1
  exact le_max_one_trans (h2 lname) (h1 lname)

/-- Witness for `syncUserData_twice_no_duplicate_names`: a concrete double
pull whose provider data carries two case-variants of "Alice Smith" against
an initially empty contact store. -/
theorem syncUserData_twice_no_duplicate_names_witness :
    countName ((syncUserData 1 (syncUserData 1 exStorage exConnectedUser
        exPullOracles).1 exConnectedUser exPullOracles).1).contacts
        exConnectedUser.id "alice smith" ≤
      max 1 (countName exStorage.contacts exConnectedUser.id "alice smith") :=
  syncUserData_twice_no_duplicate_names 1 exStorage exConnectedUser
    exPullOracles "alice smith" (by decide)
